import Mathlib

/-
Verification development for an unscented Kalman filter (UKF) tracking a
moving object from laser (direct position) and radar (range/bearing/range
rate) measurements.  The definitions below are a shallow embedding of
src/src/ukf.cpp: matrices become Mathlib matrices over the reals, the
imperative per-sigma-point loops become Finset sums, and the two-loop
angle-wrap idiom becomes a recursive function.  Floating point rounding is
not modelled; all arithmetic is exact real arithmetic.
-/

set_option maxHeartbeats 1600000

open Real

noncomputable section

namespace UKF

open scoped Classical

/-- Sensor type tag of a measurement package (LASER reports direct position,
RADAR reports range, bearing and range rate). -/
inductive SensorType
  | LASER
  | RADAR
deriving DecidableEq

/-- Measurement record: sensor tag, integer timestamp in microseconds, and the
raw value vector (2 components used for LASER, 3 for RADAR). -/
structure MeasurementPackage where
  sensor_type_ : SensorType
  timestamp_ : ℤ
  raw_measurements_ : Fin 3 → ℝ

/-- Persistent filter state: configuration flags, belief mean and covariance,
initialization flag, stored timestamp and the two NIS diagnostic slots.
The header file of the repository is not under src/; the field list follows
the members read and written by src/src/ukf.cpp. -/
@[ext]
structure State where
  use_laser_ : Bool
  use_radar_ : Bool
  x_ : Fin 5 → ℝ
  P_ : Matrix (Fin 5) (Fin 5) ℝ
  is_initialized_ : Bool
  previous_timestamp_ : ℤ
  NIS_lidar : ℝ
  NIS_radar : ℝ

/-- State dimension, ukf.cpp line 22. -/
def n_x : ℕ := 5

/-- Augmented state dimension, ukf.cpp line 25. -/
def n_aug : ℕ := 7

/-- Number of sigma points, ukf.cpp line 73. -/
def n_sigma_pts : ℕ := 2 * n_aug + 1

/-- Spread parameter lambda = 3 - n_x, ukf.cpp line 54. -/
def lambda : ℝ := 3 - (n_x : ℝ)

/-- Process noise standard deviation, longitudinal acceleration. -/
def std_a : ℝ := 6

/-- Process noise standard deviation, yaw acceleration. -/
def std_yawdd : ℝ := Real.pi / 6

/-- Laser measurement noise standard deviation, x position. -/
def std_laspx : ℝ := 0.15

/-- Laser measurement noise standard deviation, y position. -/
def std_laspy : ℝ := 0.15

/-- Radar measurement noise standard deviation, range. -/
def std_radr : ℝ := 0.3

/-- Radar measurement noise standard deviation, bearing. -/
def std_radphi : ℝ := 0.03

/-- Radar measurement noise standard deviation, range rate. -/
def std_radrd : ℝ := 0.3

/-- Laser measurement noise covariance, ukf.cpp lines 91-93. -/
def R_lidar : Matrix (Fin 2) (Fin 2) ℝ :=
  !![std_laspx * std_laspx, 0; 0, std_laspy * std_laspy]

/-- Radar measurement noise covariance, ukf.cpp lines 85-89. -/
def R_radar : Matrix (Fin 3) (Fin 3) ℝ :=
  !![std_radr * std_radr, 0, 0;
     0, std_radphi * std_radphi, 0;
     0, 0, std_radrd * std_radrd]

/-- Recombination weights set once in the constructor, ukf.cpp lines 95-101. -/
def weights : Fin 15 → ℝ := fun i =>
  if i = 0 then lambda / (lambda + (n_aug : ℝ)) else 0.5 / ((n_aug : ℝ) + lambda)

/-- First angle-wrap loop: while the value exceeds pi, subtract two pi
(the first of the two while loops repeated at ukf.cpp lines 185-186,
346-347, 367-368, 373-374 and 385-386). -/
def normDown (x : ℝ) : ℝ :=
  if h : Real.pi < x then normDown (x - 2 * Real.pi) else x
termination_by Nat.ceil ((x - Real.pi) / (2 * Real.pi))
decreasing_by
  have hpi := Real.pi_pos
  have harg : 0 < (x - Real.pi) / (2 * Real.pi) :=
    div_pos (by linarith) (by linarith)
  have heq : (x - 2 * Real.pi - Real.pi) / (2 * Real.pi)
      = (x - Real.pi) / (2 * Real.pi) - 1 := by
    field_simp
    ring
  rw [heq]
  have h1 : 1 ≤ ⌈(x - Real.pi) / (2 * Real.pi)⌉₊ := by
    have := Nat.ceil_pos.mpr harg
    omega
  have h2 : ⌈(x - Real.pi) / (2 * Real.pi) - 1⌉₊
      ≤ ⌈(x - Real.pi) / (2 * Real.pi)⌉₊ - 1 := by
    apply Nat.ceil_le.mpr
    have hc : ((⌈(x - Real.pi) / (2 * Real.pi)⌉₊ - 1 : ℕ) : ℝ)
        = (⌈(x - Real.pi) / (2 * Real.pi)⌉₊ : ℝ) - 1 := by
      push_cast [Nat.cast_sub h1]
      ring
    rw [hc]
    have := Nat.le_ceil ((x - Real.pi) / (2 * Real.pi))
    linarith
  omega

/-- Second angle-wrap loop: while the value is below minus pi, add two pi. -/
def normUp (x : ℝ) : ℝ :=
  if h : x < -Real.pi then normUp (x + 2 * Real.pi) else x
termination_by Nat.ceil ((-Real.pi - x) / (2 * Real.pi))
decreasing_by
  have hpi := Real.pi_pos
  have harg : 0 < (-Real.pi - x) / (2 * Real.pi) :=
    div_pos (by linarith) (by linarith)
  have heq : (-Real.pi - (x + 2 * Real.pi)) / (2 * Real.pi)
      = (-Real.pi - x) / (2 * Real.pi) - 1 := by
    field_simp
    ring
  rw [heq]
  have h1 : 1 ≤ ⌈(-Real.pi - x) / (2 * Real.pi)⌉₊ := by
    have := Nat.ceil_pos.mpr harg
    omega
  have h2 : ⌈(-Real.pi - x) / (2 * Real.pi) - 1⌉₊
      ≤ ⌈(-Real.pi - x) / (2 * Real.pi)⌉₊ - 1 := by
    apply Nat.ceil_le.mpr
    have hc : ((⌈(-Real.pi - x) / (2 * Real.pi)⌉₊ - 1 : ℕ) : ℝ)
        = (⌈(-Real.pi - x) / (2 * Real.pi)⌉₊ : ℝ) - 1 := by
      push_cast [Nat.cast_sub h1]
      ring
    rw [hc]
    have := Nat.le_ceil ((-Real.pi - x) / (2 * Real.pi))
    linarith
  omega

/-- Angle normalization as performed by the source: first reduce values above
pi, then raise values below minus pi. -/
def normalizeAngle (x : ℝ) : ℝ := normUp (normDown x)

/-- Entry recursion of the lower-triangular Cholesky factorization computed by
the llt() call at ukf.cpp line 271 (Cholesky-Banachiewicz scheme over natural
number indices; entries above the diagonal are zero). -/
def cholEntryAux (g : ℕ → ℕ → ℝ) (i j : ℕ) : ℝ :=
  if _h : i < j then 0
  else if _h2 : i = j then
    Real.sqrt (g i i - ∑ k : Fin j, (cholEntryAux g i k.val) ^ 2)
  else
    (g i j - ∑ k : Fin j, cholEntryAux g i k.val * cholEntryAux g j k.val) /
      cholEntryAux g j j
termination_by (i, j)
decreasing_by
  · exact Prod.Lex.right i k.isLt
  · exact Prod.Lex.right i k.isLt
  · exact Prod.Lex.left _ _ (by omega)
  · exact Prod.Lex.left _ _ (by omega)

/-- Lower-triangular Cholesky factor of a 7 by 7 matrix, as used to take the
matrix square root of the augmented covariance. -/
def cholesky (A : Matrix (Fin 7) (Fin 7) ℝ) : Matrix (Fin 7) (Fin 7) ℝ :=
  fun i j =>
    cholEntryAux
      (fun a b =>
        if ha : a < 7 then if hb : b < 7 then A ⟨a, ha⟩ ⟨b, hb⟩ else 0 else 0)
      i.val j.val

/-- Augmented mean vector: belief mean with two zero noise components,
ukf.cpp lines 156-158. -/
def buildXaug (x : Fin 5 → ℝ) : Fin 7 → ℝ :=
  ![x 0, x 1, x 2, x 3, x 4, 0, 0]

/-- Augmented covariance: belief covariance in the top left block, the two
process noise variances on the remaining diagonal, zero elsewhere,
ukf.cpp lines 161-164. -/
def buildPaug (P : Matrix (Fin 5) (Fin 5) ℝ) : Matrix (Fin 7) (Fin 7) ℝ :=
  fun i j =>
    if hi : i.val < 5 then
      if hj : j.val < 5 then P ⟨i.val, hi⟩ ⟨j.val, hj⟩ else 0
    else
      if i.val = 5 ∧ j.val = 5 then std_a * std_a
      else if i.val = 6 ∧ j.val = 6 then std_yawdd * std_yawdd
      else 0

/-- Augmented sigma point matrix, ukf.cpp lines 269-278: column 0 is the
augmented mean, columns 1..7 add and columns 8..14 subtract the scaled
columns of the Cholesky factor. -/
def generateSigmaPoints (x_aug : Fin 7 → ℝ) (P_aug : Matrix (Fin 7) (Fin 7) ℝ) :
    Matrix (Fin 7) (Fin 15) ℝ :=
  fun r c =>
    let L := cholesky P_aug
    if _h0 : c.val = 0 then x_aug r
    else if h7 : c.val ≤ 7 then
      x_aug r + Real.sqrt (lambda + (n_aug : ℝ)) * L r ⟨c.val - 1, by omega⟩
    else
      x_aug r - Real.sqrt (lambda + (n_aug : ℝ)) * L r ⟨c.val - 8, by omega⟩

/-- CTRV motion model applied to one augmented sigma point,
ukf.cpp lines 286-329. -/
def predictOne (delta_t : ℝ) (p : Fin 7 → ℝ) : Fin 5 → ℝ :=
  let p_x := p 0
  let p_y := p 1
  let v := p 2
  let yaw := p 3
  let yawd := p 4
  let nu_a := p 5
  let nu_yawdd := p 6
  let px_p :=
    if 0.001 < |yawd| then
      p_x + v / yawd * (Real.sin (yaw + yawd * delta_t) - Real.sin yaw)
    else p_x + v * delta_t * Real.cos yaw
  let py_p :=
    if 0.001 < |yawd| then
      p_y + v / yawd * (Real.cos yaw - Real.cos (yaw + yawd * delta_t))
    else p_y + v * delta_t * Real.sin yaw
  ![px_p + 0.5 * nu_a * delta_t * delta_t * Real.cos yaw,
    py_p + 0.5 * nu_a * delta_t * delta_t * Real.sin yaw,
    v + nu_a * delta_t,
    yaw + yawd * delta_t + 0.5 * nu_yawdd * delta_t * delta_t,
    yawd + nu_yawdd * delta_t]

/-- Predicted state sigma points: the motion model applied columnwise. -/
def predictSigmaPoints (delta_t : ℝ) (Xsig_aug : Matrix (Fin 7) (Fin 15) ℝ) :
    Matrix (Fin 5) (Fin 15) ℝ :=
  fun r c => predictOne delta_t (fun k => Xsig_aug k c) r

/-- Weighted recombination of the predicted sigma points into the predicted
state mean, ukf.cpp lines 173-176. -/
def stateMean (Xsig_pred : Matrix (Fin 5) (Fin 15) ℝ) : Fin 5 → ℝ :=
  fun r => ∑ c : Fin 15, weights c * Xsig_pred r c

/-- State residual of sigma point c against the mean, with the heading
component (index 3) angle normalized, as in ukf.cpp lines 183-186 and
371-374. -/
def xdiffN (Xsig_pred : Matrix (Fin 5) (Fin 15) ℝ) (x : Fin 5 → ℝ)
    (c : Fin 15) : Fin 5 → ℝ :=
  fun r =>
    if r.val = 3 then normalizeAngle (Xsig_pred r c - x r)
    else Xsig_pred r c - x r

/-- Weighted recombination into the predicted state covariance,
ukf.cpp lines 179-189. -/
def stateCov (Xsig_pred : Matrix (Fin 5) (Fin 15) ℝ) (x : Fin 5 → ℝ) :
    Matrix (Fin 5) (Fin 5) ℝ :=
  ∑ c : Fin 15,
    weights c • Matrix.vecMulVec (xdiffN Xsig_pred x c) (xdiffN Xsig_pred x c)

/-- Prediction step, ukf.cpp lines 154-192: build the augmented belief,
generate and propagate the sigma points, and recombine.  Returns the
predicted mean, predicted covariance and the predicted sigma points kept for
the measurement update. -/
def Prediction (s : State) (delta_t : ℝ) :
    (Fin 5 → ℝ) × Matrix (Fin 5) (Fin 5) ℝ × Matrix (Fin 5) (Fin 15) ℝ :=
  let x_aug := buildXaug s.x_
  let P_aug := buildPaug s.P_
  let Xsig_aug := generateSigmaPoints x_aug P_aug
  let Xsig_pred := predictSigmaPoints delta_t Xsig_aug
  let xm := stateMean Xsig_pred
  (xm, stateCov Xsig_pred xm, Xsig_pred)

/-- Observation sigma points of the laser model: the first two rows of the
predicted state sigma points, ukf.cpp line 202. -/
def lidarZsig (Xsig_pred : Matrix (Fin 5) (Fin 15) ℝ) :
    Matrix (Fin 2) (Fin 15) ℝ :=
  fun r c => Xsig_pred ⟨r.val, by omega⟩ c

/-- Four-quadrant arctangent with the conventions of atan2 in math.h. -/
def atan2 (y x : ℝ) : ℝ :=
  if 0 < x then Real.arctan (y / x)
  else if x < 0 then
    if 0 ≤ y then Real.arctan (y / x) + Real.pi
    else Real.arctan (y / x) - Real.pi
  else
    if 0 < y then Real.pi / 2
    else if y < 0 then -(Real.pi / 2)
    else 0

/-- Observation sigma points of the radar model, ukf.cpp lines 223-238:
range, bearing and range rate of each predicted state sigma point.  The range
rate denominator is the plain root of px squared plus py squared, with no
lower bound. -/
def radarZsig (Xsig_pred : Matrix (Fin 5) (Fin 15) ℝ) :
    Matrix (Fin 3) (Fin 15) ℝ :=
  fun r c =>
    let p_x := Xsig_pred 0 c
    let p_y := Xsig_pred 1 c
    let v := Xsig_pred 2 c
    let yaw := Xsig_pred 3 c
    let v1 := Real.cos yaw * v
    let v2 := Real.sin yaw * v
    if r.val = 0 then Real.sqrt (p_x * p_x + p_y * p_y)
    else if r.val = 1 then atan2 p_y p_x
    else (p_x * v1 + p_y * v2) / Real.sqrt (p_x * p_x + p_y * p_y)

/-- Observation residual of sigma point c against the predicted observation
mean, with component 1 angle normalized, ukf.cpp lines 343-347 and 365-368.
The normalization of component 1 is applied for both sensor types. -/
def zdiffN {k : ℕ} (Zsig : Matrix (Fin (k + 2)) (Fin 15) ℝ)
    (z_pred : Fin (k + 2) → ℝ) (c : Fin 15) : Fin (k + 2) → ℝ :=
  fun r =>
    if r.val = 1 then normalizeAngle (Zsig r c - z_pred r)
    else Zsig r c - z_pred r

/-- Predicted observation mean, ukf.cpp lines 334-337. -/
def measMean {k : ℕ} (Zsig : Matrix (Fin (k + 2)) (Fin 15) ℝ) :
    Fin (k + 2) → ℝ :=
  fun r => ∑ c : Fin 15, weights c * Zsig r c

/-- Predicted observation covariance with the additive sensor noise,
ukf.cpp lines 340-353. -/
def measCov {k : ℕ} (Zsig : Matrix (Fin (k + 2)) (Fin 15) ℝ)
    (z_pred : Fin (k + 2) → ℝ) (R : Matrix (Fin (k + 2)) (Fin (k + 2)) ℝ) :
    Matrix (Fin (k + 2)) (Fin (k + 2)) ℝ :=
  (∑ c : Fin 15,
    weights c • Matrix.vecMulVec (zdiffN Zsig z_pred c) (zdiffN Zsig z_pred c))
    + R

/-- Innovation used by the corrector: actual observation minus predicted
observation mean, with component 1 angle normalized,
ukf.cpp lines 382-386. -/
def innovation {k : ℕ} (z z_pred : Fin (k + 2) → ℝ) : Fin (k + 2) → ℝ :=
  fun r =>
    if r.val = 1 then normalizeAngle (z r - z_pred r)
    else z r - z_pred r

/-- Cross correlation matrix between state and observation space,
ukf.cpp lines 360-377. -/
def crossCorrelation {k : ℕ} (Xsig_pred : Matrix (Fin 5) (Fin 15) ℝ)
    (x : Fin 5 → ℝ) (Zsig : Matrix (Fin (k + 2)) (Fin 15) ℝ)
    (z_pred : Fin (k + 2) → ℝ) : Matrix (Fin 5) (Fin (k + 2)) ℝ :=
  ∑ c : Fin 15,
    weights c • Matrix.vecMulVec (xdiffN Xsig_pred x c) (zdiffN Zsig z_pred c)

/-- Correction step, ukf.cpp lines 356-397: Kalman gain, mean and covariance
update, and the NIS scalar.  Returns the new mean, new covariance and the
NIS value. -/
def UpdateMeasurment {k : ℕ} (Xsig_pred : Matrix (Fin 5) (Fin 15) ℝ)
    (x : Fin 5 → ℝ) (P : Matrix (Fin 5) (Fin 5) ℝ)
    (Zsig : Matrix (Fin (k + 2)) (Fin 15) ℝ) (z_pred : Fin (k + 2) → ℝ)
    (S : Matrix (Fin (k + 2)) (Fin (k + 2)) ℝ) (z : Fin (k + 2) → ℝ) :
    (Fin 5 → ℝ) × Matrix (Fin 5) (Fin 5) ℝ × ℝ :=
  let Tc := crossCorrelation Xsig_pred x Zsig z_pred
  let K := Tc * S⁻¹
  let z_diff := innovation z z_pred
  let nis := ∑ r, z_diff r * (S⁻¹.mulVec z_diff) r
  (x + K.mulVec z_diff, P - K * S * K.transpose, nis)

/-- Post-prediction dispatch of ukf.cpp lines 142-146 together with the two
update routines (ukf.cpp lines 198-210 and 216-248), parameterized by the
elapsed time passed to the prediction. -/
def AfterPrediction (s : State) (meas : MeasurementPackage) (delta_t : ℝ) :
    State :=
  let pr := Prediction s delta_t
  let xm := pr.1
  let Pm := pr.2.1
  let Xp := pr.2.2
  match meas.sensor_type_ with
  | SensorType.RADAR =>
      let Zsig := radarZsig Xp
      let z_pred := measMean Zsig
      let S := measCov Zsig z_pred R_radar
      let u := UpdateMeasurment Xp xm Pm Zsig z_pred S meas.raw_measurements_
      { s with x_ := u.1, P_ := u.2.1, previous_timestamp_ := meas.timestamp_,
               NIS_radar := u.2.2 }
  | SensorType.LASER =>
      let Zsig := lidarZsig Xp
      let z_pred := measMean Zsig
      let S := measCov Zsig z_pred R_lidar
      let z : Fin 2 → ℝ := fun r => meas.raw_measurements_ ⟨r.val, by omega⟩
      let u := UpdateMeasurment Xp xm Pm Zsig z_pred S z
      { s with x_ := u.1, P_ := u.2.1, previous_timestamp_ := meas.timestamp_,
               NIS_lidar := u.2.2 }

/-- Full post-initialization step of ProcessMeasurement, ukf.cpp lines
139-146: the elapsed time is the raw timestamp difference in seconds, with
no ordering check, and is passed to the prediction unchanged. -/
def postInitProcess (s : State) (meas : MeasurementPackage) : State :=
  AfterPrediction s meas
    (((meas.timestamp_ - s.previous_timestamp_ : ℤ) : ℝ) / 1000000)

/-- Initialization branch of ProcessMeasurement, ukf.cpp lines 111-138.
The narrowing to float in the source is not modelled. -/
def initProcess (s : State) (meas : MeasurementPackage) : State :=
  match meas.sensor_type_ with
  | SensorType.RADAR =>
      let rho := meas.raw_measurements_ 0
      let phi := meas.raw_measurements_ 1
      let rhodot := meas.raw_measurements_ 2
      let vx := rhodot * Real.cos phi
      let vy := rhodot * Real.sin phi
      { s with
        x_ := ![rho * Real.cos phi, rho * Real.sin phi,
                Real.sqrt (vx * vx + vy * vy), 0, 0],
        previous_timestamp_ := meas.timestamp_,
        is_initialized_ := true }
  | SensorType.LASER =>
      let px0 := meas.raw_measurements_ 0
      let py0 := meas.raw_measurements_ 1
      let px := if |px0| < 0.001 then 0.001 else px0
      let py := if |py0| < 0.001 then 0.001 else py0
      { s with
        x_ := ![px, py, 0, 0, 0],
        previous_timestamp_ := meas.timestamp_,
        is_initialized_ := true }

/-- ProcessMeasurement, ukf.cpp lines 110-147.  Note that the configuration
flags use_laser_ and use_radar_ are not consulted anywhere on this path. -/
def ProcessMeasurement (s : State) (meas : MeasurementPackage) : State :=
  if s.is_initialized_ = false then initProcess s meas
  else postInitProcess s meas

/-- Diagonal of the augmented covariance built from a diagonal belief
covariance. -/
def daug (v : Fin 5 → ℝ) : Fin 7 → ℝ :=
  ![v 0, v 1, v 2, v 3, v 4, std_a * std_a, std_yawdd * std_yawdd]

/-- Diagonal belief covariance with every variance one fifth, used by the
concrete evaluation scenarios: the sigma point spread of each state
component is then exactly one. -/
def d5 : Fin 5 → ℝ := ![1 / 5, 1 / 5, 1 / 5, 1 / 5, 1 / 5]

/-- Concrete evaluation state: initialized, laser disabled by configuration,
mean (1,0,0,0,0), covariance diagonal one fifth. -/
def s1 : State :=
  { use_laser_ := false, use_radar_ := true, x_ := ![1, 0, 0, 0, 0],
    P_ := Matrix.diagonal d5, is_initialized_ := true,
    previous_timestamp_ := 0, NIS_lidar := 0, NIS_radar := 0 }

/-- Laser measurement with position (2, 0) at the stored timestamp. -/
def m1 : MeasurementPackage :=
  { sensor_type_ := SensorType.LASER, timestamp_ := 0,
    raw_measurements_ := ![2, 0, 0] }

/-- Laser measurement with position (1, 4) at the stored timestamp: the y
residual 4 exceeds pi, so the corrector wraps it. -/
def m7 : MeasurementPackage :=
  { sensor_type_ := SensorType.LASER, timestamp_ := 0,
    raw_measurements_ := ![1, 4, 0] }

/-- Predicted sigma points of scenario s1 at elapsed time zero. -/
def M1 : Matrix (Fin 5) (Fin 15) ℝ :=
  !![1, 2, 1, 1, 1, 1, 1, 1, 0, 1, 1, 1, 1, 1, 1;
     0, 0, 1, 0, 0, 0, 0, 0, 0, -1, 0, 0, 0, 0, 0;
     0, 0, 0, 1, 0, 0, 0, 0, 0, 0, -1, 0, 0, 0, 0;
     0, 0, 0, 0, 1, 0, 0, 0, 0, 0, 0, -1, 0, 0, 0;
     0, 0, 0, 0, 0, 1, 0, 0, 0, 0, 0, 0, -1, 0, 0]

/-- Indefinite diagonal belief covariance: the x position variance slot holds
minus one fifth, so the augmented covariance is not positive semidefinite. -/
def d3 : Fin 5 → ℝ := ![-(1 / 5), 1 / 5, 1 / 5, 1 / 5, 1 / 5]

/-- Concrete evaluation state with the indefinite covariance d3. -/
def s3 : State :=
  { use_laser_ := true, use_radar_ := true, x_ := ![1, 0, 0, 0, 0],
    P_ := Matrix.diagonal d3, is_initialized_ := true,
    previous_timestamp_ := 0, NIS_lidar := 0, NIS_radar := 0 }

/-- Laser measurement with position (1, 1) at the stored timestamp. -/
def m3 : MeasurementPackage :=
  { sensor_type_ := SensorType.LASER, timestamp_ := 0,
    raw_measurements_ := ![1, 1, 0] }

/-- Predicted sigma points of scenario s3 at elapsed time zero: the negative
variance slot yields a zero Cholesky entry, so the x position has no
spread. -/
def M3 : Matrix (Fin 5) (Fin 15) ℝ :=
  !![1, 1, 1, 1, 1, 1, 1, 1, 1, 1, 1, 1, 1, 1, 1;
     0, 0, 1, 0, 0, 0, 0, 0, 0, -1, 0, 0, 0, 0, 0;
     0, 0, 0, 1, 0, 0, 0, 0, 0, 0, -1, 0, 0, 0, 0;
     0, 0, 0, 0, 1, 0, 0, 0, 0, 0, 0, -1, 0, 0, 0;
     0, 0, 0, 0, 0, 1, 0, 0, 0, 0, 0, 0, -1, 0, 0]

/-- Concrete evaluation state with nonzero turn rate: mean (1,0,0,0,1),
covariance diagonal one fifth, stored timestamp zero. -/
def s9 : State :=
  { use_laser_ := true, use_radar_ := true, x_ := ![1, 0, 0, 0, 1],
    P_ := Matrix.diagonal d5, is_initialized_ := true,
    previous_timestamp_ := 0, NIS_lidar := 0, NIS_radar := 0 }

/-- Laser measurement whose timestamp is one second BEFORE the stored
timestamp of s9, with raw position equal to the predicted observation. -/
def m9 : MeasurementPackage :=
  { sensor_type_ := SensorType.LASER, timestamp_ := -1000000,
    raw_measurements_ := ![1, 0, 0] }

/-- Copy of m9 with the elapsed time clamped: same sensor and raw values, but
timestamp equal to the stored previous timestamp of s9. -/
def m9c : MeasurementPackage :=
  { sensor_type_ := SensorType.LASER, timestamp_ := 0,
    raw_measurements_ := ![1, 0, 0] }

/-- Predicted sigma points of scenario s9 at elapsed time minus one. -/
def M9 : Matrix (Fin 5) (Fin 15) ℝ :=
  !![1, 2, 1, 1 - Real.sin 1, 1, 1, 1 + 3 * Real.sqrt 5, 1,
       0, 1, 1 + Real.sin 1, 1, 1, 1 - 3 * Real.sqrt 5, 1;
     0, 0, 1, 1 - Real.cos 1, 0, 0, 0, 0,
       0, -1, Real.cos 1 - 1, 0, 0, 0, 0;
     0, 0, 0, 1, 0, 0, -(6 * Real.sqrt 5), 0,
       0, 0, -1, 0, 0, 6 * Real.sqrt 5, 0;
     -1, -1, -1, -1, 0, -2, -1, -1 + 0.5 * (Real.sqrt 5 * (Real.pi / 6)),
       -1, -1, -1, -2, 0, -1, -1 - 0.5 * (Real.sqrt 5 * (Real.pi / 6));
     1, 1, 1, 1, 1, 2, 1, 1 - Real.sqrt 5 * (Real.pi / 6),
       1, 1, 1, 1, 0, 1, 1 + Real.sqrt 5 * (Real.pi / 6)]

/-- Degenerate predicted sigma point matrix with every entry zero: each
predicted position is at the origin. -/
def XpZero : Matrix (Fin 5) (Fin 15) ℝ := fun _ _ => 0

/-- State produced by the constructor, ukf.cpp lines 14-102.  The
initialization flag, the stored timestamp and the NIS slots are not assigned
by the constructor (they are declared in the header, which is not under
src/); following the specification, the belief starts uninitialized, so the
flag is modelled as false and the remaining unassigned scalars as zero. -/
def UKF_init : State :=
  { use_laser_ := true, use_radar_ := true,
    x_ := ![0, 0, Real.pi / 4, 0.30, 0.18],
    P_ := !![0.3, 0, 0, 0, 0;
             0, 0.2, 0, 0, 0;
             0, 0, 0.3, 0, 0;
             0, 0, 0, 1, 0;
             0, 0, 0, 0, 1],
    is_initialized_ := false, previous_timestamp_ := 0,
    NIS_lidar := 0, NIS_radar := 0 }

theorem normDown_eq_self {x : ℝ} (h : x ≤ Real.pi) : normDown x = x := by
  rw [normDown]
  exact dif_neg (by linarith)

theorem normUp_eq_self {x : ℝ} (h : -Real.pi ≤ x) : normUp x = x := by
  rw [normUp]
  exact dif_neg (by linarith)

theorem normDown_le (x : ℝ) : normDown x ≤ Real.pi := by
  induction x using normDown.induct with
  | case1 x h ih => rwa [normDown, dif_pos h]
  | case2 x h => rw [normDown, dif_neg h]; linarith

theorem normUp_bounds {x : ℝ} (hx : x ≤ Real.pi) :
    -Real.pi ≤ normUp x ∧ normUp x ≤ Real.pi := by
  induction x using normUp.induct with
  | case1 x h ih =>
    rw [normUp, dif_pos h]
    have hpi := Real.pi_pos
    exact ih (by linarith)
  | case2 x h =>
    rw [normUp, dif_neg h]
    exact ⟨by linarith, hx⟩

theorem normalizeAngle_mem (x : ℝ) :
    -Real.pi ≤ normalizeAngle x ∧ normalizeAngle x ≤ Real.pi :=
  normUp_bounds (normDown_le x)

theorem normalizeAngle_eq_self {x : ℝ} (h1 : -Real.pi ≤ x) (h2 : x ≤ Real.pi) :
    normalizeAngle x = x := by
  rw [normalizeAngle, normDown_eq_self h2, normUp_eq_self h1]

theorem normalizeAngle_idem (x : ℝ) :
    normalizeAngle (normalizeAngle x) = normalizeAngle x :=
  normalizeAngle_eq_self (normalizeAngle_mem x).1 (normalizeAngle_mem x).2

theorem normalizeAngle_zero : normalizeAngle 0 = 0 :=
  normalizeAngle_eq_self (by have := Real.pi_pos; linarith) Real.pi_pos.le

theorem normalizeAngle_one : normalizeAngle 1 = 1 :=
  normalizeAngle_eq_self (by have := Real.pi_gt_three; linarith)
    (by have := Real.pi_gt_three; linarith)

theorem normalizeAngle_neg_one : normalizeAngle (-1) = -1 :=
  normalizeAngle_eq_self (by have := Real.pi_gt_three; linarith)
    (by have := Real.pi_gt_three; linarith)

theorem normalizeAngle_four : normalizeAngle 4 = 4 - 2 * Real.pi := by
  have h3 := Real.pi_gt_three
  have h4 : Real.pi < 3.15 := Real.pi_lt_d2
  have hd : normDown 4 = 4 - 2 * Real.pi := by
    rw [normDown, dif_pos (by linarith)]
    exact normDown_eq_self (by linarith)
  rw [normalizeAngle, hd, normUp_eq_self (by linarith)]

theorem cholEntryAux_diag {g : ℕ → ℕ → ℝ} (hg : ∀ a b, a ≠ b → g a b = 0) :
    ∀ i j, cholEntryAux g i j = if i = j then Real.sqrt (g i i) else 0 := by
  intro i
  induction i using Nat.strong_induction_on with
  | _ i ihi =>
    intro j
    induction j using Nat.strong_induction_on with
    | _ j ihj =>
      rcases lt_trichotomy i j with hij | hij | hij
      · rw [cholEntryAux, dif_pos hij]
        rw [if_neg (by omega)]
      · subst hij
        rw [cholEntryAux, dif_neg (by omega), dif_pos rfl, if_pos rfl]
        have hsum : (∑ k : Fin i, (cholEntryAux g i k.val) ^ 2) = 0 := by
          apply Finset.sum_eq_zero
          intro k _
          rw [ihj k.val k.isLt, if_neg (by omega)]
          norm_num
        rw [hsum]
        ring_nf
      · rw [cholEntryAux, dif_neg (by omega), dif_neg (by omega),
          if_neg (by omega)]
        have hsum : (∑ k : Fin j,
            cholEntryAux g i k.val * cholEntryAux g j k.val) = 0 := by
          apply Finset.sum_eq_zero
          intro k _
          rw [ihi j hij k.val, if_neg (by omega)]
          ring
        rw [hsum, hg i j (by omega)]
        norm_num

theorem cholesky_diagonal (d : Fin 7 → ℝ) :
    cholesky (Matrix.diagonal d)
      = Matrix.diagonal (fun i => Real.sqrt (d i)) := by
  funext i j
  have hg : ∀ a b, a ≠ b →
      (fun a b => if ha : a < 7 then if hb : b < 7 then
        (Matrix.diagonal d) ⟨a, ha⟩ ⟨b, hb⟩ else 0 else 0) a b = 0 := by
    intro a b hab
    by_cases ha : a < 7
    · by_cases hb : b < 7
      · simp only [dif_pos ha, dif_pos hb]
        exact Matrix.diagonal_apply_ne d (by simp [Fin.ext_iff]; omega)
      · simp [dif_pos ha, dif_neg hb]
    · simp [dif_neg ha]
  rw [cholesky, cholEntryAux_diag hg i.val j.val]
  by_cases hij : i = j
  · subst hij
    rw [if_pos rfl]
    simp [Matrix.diagonal_apply_eq, i.isLt]
  · rw [if_neg (by simp [Fin.ext_iff] at hij ⊢; omega)]
    rw [Matrix.diagonal_apply_ne _ hij]

theorem weights_eq :
    weights = fun i : Fin 15 => if i = 0 then -(2 / 5 : ℝ) else 1 / 10 := by
  funext i
  rw [weights]
  split <;> norm_num [lambda, n_x, n_aug]

theorem sqrt_lambda_aug : Real.sqrt (lambda + (n_aug : ℝ)) = Real.sqrt 5 := by
  norm_num [lambda, n_x, n_aug]

theorem sqrt5_sqrt_fifth : Real.sqrt 5 * Real.sqrt (1 / 5) = 1 := by
  rw [← Real.sqrt_mul (by norm_num)]
  norm_num

theorem predictOne_zero (p : Fin 7 → ℝ) :
    predictOne 0 p = ![p 0, p 1, p 2, p 3, p 4] := by
  funext r
  rw [predictOne]
  fin_cases r <;> simp

theorem predictSigmaPoints_zero (X : Matrix (Fin 7) (Fin 15) ℝ) :
    predictSigmaPoints 0 X = fun r c => X ⟨r.val, by omega⟩ c := by
  funext r c
  rw [predictSigmaPoints, predictOne_zero]
  fin_cases r <;> rfl

theorem genSig_weightedMean (xa : Fin 7 → ℝ) (Pa : Matrix (Fin 7) (Fin 7) ℝ)
    (r : Fin 7) :
    (∑ c : Fin 15, weights c * generateSigmaPoints xa Pa r c) = xa r := by
  simp only [weights_eq, generateSigmaPoints]
  simp only [Fin.sum_univ_succ, Fin.sum_univ_zero]
  norm_num [Fin.succ_ne_zero, Fin.ext_iff, Fin.val_succ]
  ring

theorem buildPaug_diagonal (v : Fin 5 → ℝ) :
    buildPaug (Matrix.diagonal v) = Matrix.diagonal (daug v) := by
  funext i j
  fin_cases i <;> fin_cases j <;>
    norm_num [buildPaug, daug, Matrix.diagonal_apply, Fin.ext_iff] <;> rfl

theorem genSig_diagonal (xa : Fin 7 → ℝ) (d : Fin 7 → ℝ) (r : Fin 7)
    (c : Fin 15) :
    generateSigmaPoints xa (Matrix.diagonal d) r c =
      if c.val = 0 then xa r
      else if c.val ≤ 7 then
        xa r + Real.sqrt (lambda + (n_aug : ℝ)) *
          (if r.val = c.val - 1 then Real.sqrt (d r) else 0)
      else
        xa r - Real.sqrt (lambda + (n_aug : ℝ)) *
          (if r.val = c.val - 8 then Real.sqrt (d r) else 0) := by
  rw [generateSigmaPoints]
  simp only [cholesky_diagonal]
  split_ifs with h0 h7 h1 h1 <;>
    simp_all [Matrix.diagonal_apply, Fin.ext_iff]

theorem Xp1_eval :
    predictSigmaPoints 0
      (generateSigmaPoints (buildXaug ![1, 0, 0, 0, 0])
        (buildPaug (Matrix.diagonal d5))) = M1 := by
  rw [predictSigmaPoints_zero, buildPaug_diagonal]
  funext r c
  rw [genSig_diagonal]
  fin_cases r <;> fin_cases c <;>
    norm_num [buildXaug, daug, d5, M1, sqrt_lambda_aug, std_a, std_yawdd] <;>
    rw [sqrt_lambda_aug] <;> norm_num [sqrt5_sqrt_fifth]

theorem xm1_eval : stateMean M1 = ![1, 0, 0, 0, 0] := by
  funext r
  rw [stateMean]
  fin_cases r <;>
    norm_num [weights_eq, Fin.sum_univ_succ, M1, Fin.succ_ne_zero,
      Fin.ext_iff, Fin.val_succ]

theorem zp1_eval : measMean (lidarZsig M1) = ![1, 0] := by
  funext r
  rw [measMean]
  fin_cases r <;>
    norm_num [lidarZsig, weights_eq, Fin.sum_univ_succ, M1, Fin.succ_ne_zero,
      Fin.ext_iff, Fin.val_succ]

theorem S1_eval :
    measCov (lidarZsig M1) ![1, 0] R_lidar = !![89 / 400, 0; 0, 89 / 400] := by
  funext i j
  fin_cases i <;> fin_cases j <;>
    norm_num [measCov, zdiffN, lidarZsig, M1, weights_eq, Matrix.sum_apply,
      Matrix.vecMulVec_apply, Fin.sum_univ_succ, R_lidar, std_laspx,
      std_laspy, normalizeAngle_zero, normalizeAngle_one,
      normalizeAngle_neg_one, Fin.succ_ne_zero, Fin.ext_iff, Fin.val_succ]

theorem Tc1_eval :
    crossCorrelation M1 ![1, 0, 0, 0, 0] (lidarZsig M1) ![1, 0]
      = !![1 / 5, 0; 0, 1 / 5; 0, 0; 0, 0; 0, 0] := by
  funext i j
  fin_cases i <;> fin_cases j <;>
    norm_num [crossCorrelation, zdiffN, xdiffN, lidarZsig, M1, weights_eq,
      Matrix.sum_apply, Matrix.vecMulVec_apply, Fin.sum_univ_succ,
      normalizeAngle_zero, normalizeAngle_one, normalizeAngle_neg_one,
      Fin.succ_ne_zero, Fin.ext_iff, Fin.val_succ]

theorem inv_diag2 (a b : ℝ) (ha : a ≠ 0) (hb : b ≠ 0) :
    (!![a, 0; 0, b] : Matrix (Fin 2) (Fin 2) ℝ)⁻¹ = !![a⁻¹, 0; 0, b⁻¹] := by
  rw [Matrix.inv_def, Matrix.adjugate_fin_two_of, Matrix.det_fin_two_of]
  funext i j
  fin_cases i <;> fin_cases j <;>
    field_simp [Matrix.smul_apply, Ring.inverse_eq_inv'] <;> ring

/-- Full evaluation of a laser update from state s1 with elapsed time zero:
the posterior mean moves by the Kalman gain 80 over 89 times the
component-1-wrapped innovation. -/
theorem s1_lidar_update (a b : ℝ) (t : ℤ) :
    (AfterPrediction s1 ⟨SensorType.LASER, t, ![a, b, 0]⟩ 0).x_ =
      ![1 + 80 / 89 * (a - 1), 80 / 89 * normalizeAngle b, 0, 0, 0] := by
  simp only [AfterPrediction, Prediction, UpdateMeasurment, s1]
  rw [Xp1_eval, xm1_eval, zp1_eval, S1_eval, Tc1_eval,
    inv_diag2 _ _ (by norm_num) (by norm_num)]
  funext r
  fin_cases r <;>
    norm_num [Matrix.mulVec, Matrix.mul_apply, Matrix.dotProduct,
      Fin.sum_univ_succ, innovation, Pi.add_apply, Fin.ext_iff,
      Fin.succ_ne_zero, Fin.val_succ]

theorem Xp3_eval :
    predictSigmaPoints 0
      (generateSigmaPoints (buildXaug ![1, 0, 0, 0, 0])
        (buildPaug (Matrix.diagonal d3))) = M3 := by
  rw [predictSigmaPoints_zero, buildPaug_diagonal]
  funext r c
  rw [genSig_diagonal]
  fin_cases r <;> fin_cases c <;>
    norm_num [buildXaug, daug, d3, M3, sqrt_lambda_aug, std_a, std_yawdd,
      Real.sqrt_eq_zero_of_nonpos] <;>
    rw [sqrt_lambda_aug] <;> norm_num [sqrt5_sqrt_fifth]

theorem xm3_eval : stateMean M3 = ![1, 0, 0, 0, 0] := by
  funext r
  rw [stateMean]
  fin_cases r <;>
    norm_num [weights_eq, Fin.sum_univ_succ, M3, Fin.succ_ne_zero,
      Fin.ext_iff, Fin.val_succ]

theorem zp3_eval : measMean (lidarZsig M3) = ![1, 0] := by
  funext r
  rw [measMean]
  fin_cases r <;>
    norm_num [lidarZsig, weights_eq, Fin.sum_univ_succ, M3, Fin.succ_ne_zero,
      Fin.ext_iff, Fin.val_succ]

theorem S3_eval :
    measCov (lidarZsig M3) ![1, 0] R_lidar = !![9 / 400, 0; 0, 89 / 400] := by
  funext i j
  fin_cases i <;> fin_cases j <;>
    norm_num [measCov, zdiffN, lidarZsig, M3, weights_eq, Matrix.sum_apply,
      Matrix.vecMulVec_apply, Fin.sum_univ_succ, R_lidar, std_laspx,
      std_laspy, normalizeAngle_zero, normalizeAngle_one,
      normalizeAngle_neg_one, Fin.succ_ne_zero, Fin.ext_iff, Fin.val_succ]

theorem Tc3_eval :
    crossCorrelation M3 ![1, 0, 0, 0, 0] (lidarZsig M3) ![1, 0]
      = !![0, 0; 0, 1 / 5; 0, 0; 0, 0; 0, 0] := by
  funext i j
  fin_cases i <;> fin_cases j <;>
    norm_num [crossCorrelation, zdiffN, xdiffN, lidarZsig, M3, weights_eq,
      Matrix.sum_apply, Matrix.vecMulVec_apply, Fin.sum_univ_succ,
      normalizeAngle_zero, normalizeAngle_one, normalizeAngle_neg_one,
      Fin.succ_ne_zero, Fin.ext_iff, Fin.val_succ]

theorem sqrt_std_a : Real.sqrt (std_a * std_a) = 6 := by
  rw [Real.sqrt_mul_self (by norm_num [std_a])]
  norm_num [std_a]

theorem sqrt36 : Real.sqrt 36 = 6 := by
  rw [show (36 : ℝ) = 6 ^ 2 by norm_num, Real.sqrt_sq (by norm_num)]

theorem sqrt_std_yawdd : Real.sqrt (std_yawdd * std_yawdd) = Real.pi / 6 := by
  rw [Real.sqrt_mul_self (by rw [std_yawdd]; positivity), std_yawdd]

/-- Full evaluation of a laser update from the indefinite state s3 with
elapsed time zero: the update is applied unconditionally and moves the y
component of the belief mean. -/
theorem s3_lidar_update (a b : ℝ) (t : ℤ) :
    (AfterPrediction s3 ⟨SensorType.LASER, t, ![a, b, 0]⟩ 0).x_ =
      ![1, 80 / 89 * normalizeAngle b, 0, 0, 0] := by
  simp only [AfterPrediction, Prediction, UpdateMeasurment, s3]
  rw [Xp3_eval, xm3_eval, zp3_eval, S3_eval, Tc3_eval,
    inv_diag2 _ _ (by norm_num) (by norm_num)]
  funext r
  fin_cases r <;>
    norm_num [Matrix.mulVec, Matrix.mul_apply, Matrix.dotProduct,
      Fin.sum_univ_succ, innovation, Pi.add_apply, Fin.ext_iff,
      Fin.succ_ne_zero, Fin.val_succ]

/-- General recombination law: at elapsed time zero the predicted state mean
equals the prior mean, because the sigma point spread cancels pairwise. -/
theorem stateMean_dt_zero (x : Fin 5 → ℝ) (P : Matrix (Fin 7) (Fin 7) ℝ) :
    stateMean (predictSigmaPoints 0 (generateSigmaPoints (buildXaug x) P))
      = x := by
  funext r
  rw [stateMean]
  simp only [predictSigmaPoints_zero]
  rw [genSig_weightedMean]
  fin_cases r <;> simp [buildXaug]

/-- General recombination law: at elapsed time zero the predicted laser
observation mean equals the prior position. -/
theorem measMean_dt_zero (x : Fin 5 → ℝ) (P : Matrix (Fin 7) (Fin 7) ℝ) :
    measMean (lidarZsig
      (predictSigmaPoints 0 (generateSigmaPoints (buildXaug x) P)))
      = ![x 0, x 1] := by
  funext r
  rw [measMean]
  simp only [lidarZsig, predictSigmaPoints_zero]
  rw [genSig_weightedMean]
  fin_cases r <;> simp [buildXaug]

theorem fin7_val3 : ((3 : Fin 7) : ℕ) = 3 := rfl

theorem fin7_val4 : ((4 : Fin 7) : ℕ) = 4 := rfl

theorem fin7_val5 : ((5 : Fin 7) : ℕ) = 5 := rfl

theorem fin7_val6 : ((6 : Fin 7) : ℕ) = 6 := rfl

theorem sqrt_pisq : Real.sqrt (Real.pi ^ 2) = Real.pi :=
  Real.sqrt_sq Real.pi_pos.le

theorem vec7_app5 (a b c d e f g : ℝ) : ![a, b, c, d, e, f, g] 5 = f := rfl

theorem vec7_app6 (a b c d e f g : ℝ) : ![a, b, c, d, e, f, g] 6 = g := rfl

theorem sqrt_pisq36 : Real.sqrt (Real.pi ^ 2 * (1 / 36)) = Real.pi / 6 := by
  rw [show Real.pi ^ 2 * (1 / 36) = (Real.pi / 6) ^ 2 by ring,
    Real.sqrt_sq (by positivity)]

theorem Xp9_eval :
    predictSigmaPoints (-1)
      (generateSigmaPoints (buildXaug ![1, 0, 0, 0, 1])
        (buildPaug (Matrix.diagonal d5))) = M9 := by
  rw [buildPaug_diagonal]
  funext r c
  rw [predictSigmaPoints]
  fin_cases c <;> fin_cases r <;>
    norm_num [predictOne, genSig_diagonal, buildXaug, daug, d5, M9,
      sqrt_lambda_aug, sqrt_std_a, sqrt_std_yawdd, sqrt5_sqrt_fifth,
      sqrt36, sqrt_pisq36, sqrt_pisq, fin7_val3, fin7_val4,
      fin7_val5, fin7_val6, vec7_app5, vec7_app6,
      Real.sin_neg, Real.cos_neg, Real.sin_zero, Real.cos_zero,
      std_a, std_yawdd] <;>
    ring_nf <;>
    norm_num [Real.sin_zero, Real.cos_zero, sqrt_pisq, sqrt36] <;>
    ring

theorem xm9_eval : stateMean M9 = ![1, 0, 0, -1, 1] := by
  funext r
  rw [stateMean]
  fin_cases r <;>
    norm_num [weights_eq, Fin.sum_univ_succ, M9, Fin.succ_ne_zero,
      Fin.ext_iff, Fin.val_succ] <;> ring

theorem zp9_eval : measMean (lidarZsig M9) = ![1, 0] := by
  funext r
  rw [measMean]
  fin_cases r <;>
    norm_num [lidarZsig, weights_eq, Fin.sum_univ_succ, M9, Fin.succ_ne_zero,
      Fin.ext_iff, Fin.val_succ] <;> ring

/-- Evaluation of the s9 scenario with the raw negative elapsed time of one
second: the propagation runs backwards and the posterior heading is minus
one. -/
theorem s9_lidar_neg :
    (AfterPrediction s9 ⟨SensorType.LASER, -1000000, ![1, 0, 0]⟩ (-1)).x_ 3
      = -1 := by
  simp only [AfterPrediction, Prediction, UpdateMeasurment, s9]
  rw [Xp9_eval, xm9_eval, zp9_eval]
  norm_num [Matrix.mulVec, Matrix.mul_apply, Matrix.dotProduct,
    Fin.sum_univ_succ, innovation, Pi.add_apply, Fin.ext_iff,
    Fin.succ_ne_zero, Fin.val_succ, normalizeAngle_zero]

/-- Evaluation of the s9 scenario with the elapsed time clamped to zero: the
posterior heading stays zero. -/
theorem s9_lidar_clamped :
    (AfterPrediction s9 ⟨SensorType.LASER, 0, ![1, 0, 0]⟩ 0).x_ 3 = 0 := by
  simp only [AfterPrediction, Prediction, UpdateMeasurment, s9]
  rw [stateMean_dt_zero, measMean_dt_zero]
  norm_num [Matrix.mulVec, Matrix.mul_apply, Matrix.dotProduct,
    Fin.sum_univ_succ, innovation, Pi.add_apply, Fin.ext_iff,
    Fin.succ_ne_zero, Fin.val_succ, normalizeAngle_zero]

/-- C1: the claim states that a measurement whose sensor type is disabled by
the configuration flags leaves the belief mean and covariance unchanged, with
only the timestamp updated.  In the source the flags are never consulted:
from the initialized state s1 with use_laser_ set to false, the laser
measurement m1 is still fully processed and moves the belief mean x position
from 1 to 169/89. -/
theorem claim_C1_flags_not_consulted :
    s1.use_laser_ = false
    ∧ m1.sensor_type_ = SensorType.LASER
    ∧ s1.is_initialized_ = true
    ∧ (ProcessMeasurement s1 m1).x_ 0 = 169 / 89
    ∧ s1.x_ 0 = 1
    ∧ (169 / 89 : ℝ) ≠ 1 := by
  refine ⟨rfl, rfl, rfl, ?_, by norm_num [s1], by norm_num⟩
  have hpm : ProcessMeasurement s1 m1 = AfterPrediction s1 m1
      (((m1.timestamp_ - s1.previous_timestamp_ : ℤ) : ℝ) / 1000000) := by
    rw [ProcessMeasurement, if_neg (by simp [s1])]
    rfl
  have hdt : ((m1.timestamp_ - s1.previous_timestamp_ : ℤ) : ℝ) / 1000000
      = 0 := by
    norm_num [m1, s1]
  rw [hpm, hdt, show m1 = ⟨SensorType.LASER, 0, ![2, 0, 0]⟩ from rfl,
    s1_lidar_update]
  norm_num

/-- C2: the claim states that the radar range rate is computed with the range
floored at a small positive epsilon so that the division is well defined even
at px = py = 0.  In the source the divisor is the bare root of px squared
plus py squared (first conjunct, the exact formula of ukf.cpp line 237), and
at the all-zero predicted sigma point that divisor is exactly zero (last
conjunct): the division is by zero there, which in IEEE arithmetic yields
NaN. -/
theorem claim_C2_unguarded_range_rate :
    (∀ (Xp : Matrix (Fin 5) (Fin 15) ℝ) (c : Fin 15),
        radarZsig Xp 2 c
          = (Xp 0 c * (Real.cos (Xp 3 c) * Xp 2 c)
              + Xp 1 c * (Real.sin (Xp 3 c) * Xp 2 c))
            / Real.sqrt (Xp 0 c * Xp 0 c + Xp 1 c * Xp 1 c))
    ∧ XpZero 0 0 = 0 ∧ XpZero 1 0 = 0
    ∧ Real.sqrt (XpZero 0 0 * XpZero 0 0 + XpZero 1 0 * XpZero 1 0) = 0 := by
  refine ⟨fun Xp c => ?_, rfl, rfl, by norm_num [XpZero]⟩
  rfl

/-- C3: the claim states that an update whose augmented covariance is not
symmetric positive definite is rejected before the belief is mutated.  In
the source there is no validation: from state s3, whose augmented covariance
has the negative entry minus one fifth on the diagonal (so it is not
positive semidefinite), the laser measurement m3 is fully processed and
moves the belief mean y position from 0 to 80/89 (in IEEE arithmetic the
Cholesky root of the indefinite matrix would instead inject NaN into the
belief). -/
theorem claim_C3_no_rejection :
    ¬ (buildPaug s3.P_).PosSemidef
    ∧ (ProcessMeasurement s3 m3).x_ 1 = 80 / 89
    ∧ s3.x_ 1 = 0
    ∧ (80 / 89 : ℝ) ≠ 0 := by
  refine ⟨?_, ?_, by norm_num [s3], by norm_num⟩
  · intro hps
    have h := hps.2 ![1, 0, 0, 0, 0, 0, 0]
    rw [show buildPaug s3.P_ = Matrix.diagonal (daug d3) from by
      rw [show s3.P_ = Matrix.diagonal d3 from rfl, buildPaug_diagonal]] at h
    norm_num [Matrix.dotProduct, Matrix.mulVec_diagonal, Fin.sum_univ_succ,
      daug, d3, Fin.ext_iff, Fin.succ_ne_zero, Fin.val_succ] at h
  · have hpm : ProcessMeasurement s3 m3 = AfterPrediction s3 m3
        (((m3.timestamp_ - s3.previous_timestamp_ : ℤ) : ℝ) / 1000000) := by
      rw [ProcessMeasurement, if_neg (by simp [s3])]
      rfl
    have hdt : ((m3.timestamp_ - s3.previous_timestamp_ : ℤ) : ℝ) / 1000000
        = 0 := by
      norm_num [m3, s3]
    rw [hpm, hdt, show m3 = ⟨SensorType.LASER, 0, ![1, 1, 0]⟩ from rfl,
      s3_lidar_update]
    norm_num [normalizeAngle_one]

/-- C4: on the first call, ProcessMeasurement initializes the belief mean
directly from the measurement and returns without propagation or correction:
for RANGE_BEARING the polar reading is converted (first conjunct), for DIRECT
the two positions are clamped at magnitude 0.001 (second conjunct); the
covariance, NIS slots and flags are untouched and only the timestamp and the
initialization flag are set.  The two scenario conjuncts instantiate this at
(r=5, phi=0, rdot=0) and at (x=0, y=0). -/
theorem claim_C4_first_measurement :
    (∀ (s : State) (m : MeasurementPackage), s.is_initialized_ = false →
      m.sensor_type_ = SensorType.RADAR →
        (ProcessMeasurement s m).x_ =
          ![m.raw_measurements_ 0 * Real.cos (m.raw_measurements_ 1),
            m.raw_measurements_ 0 * Real.sin (m.raw_measurements_ 1),
            Real.sqrt
              ((m.raw_measurements_ 2 * Real.cos (m.raw_measurements_ 1)) ^ 2
              + (m.raw_measurements_ 2 * Real.sin (m.raw_measurements_ 1)) ^ 2),
            0, 0]
        ∧ (ProcessMeasurement s m).P_ = s.P_
        ∧ (ProcessMeasurement s m).previous_timestamp_ = m.timestamp_
        ∧ (ProcessMeasurement s m).is_initialized_ = true
        ∧ (ProcessMeasurement s m).NIS_lidar = s.NIS_lidar
        ∧ (ProcessMeasurement s m).NIS_radar = s.NIS_radar)
    ∧ (∀ (s : State) (m : MeasurementPackage), s.is_initialized_ = false →
      m.sensor_type_ = SensorType.LASER →
        (ProcessMeasurement s m).x_ =
          ![(if |m.raw_measurements_ 0| < 0.001 then 0.001
             else m.raw_measurements_ 0),
            (if |m.raw_measurements_ 1| < 0.001 then 0.001
             else m.raw_measurements_ 1),
            0, 0, 0]
        ∧ (ProcessMeasurement s m).P_ = s.P_
        ∧ (ProcessMeasurement s m).previous_timestamp_ = m.timestamp_
        ∧ (ProcessMeasurement s m).is_initialized_ = true
        ∧ (ProcessMeasurement s m).NIS_lidar = s.NIS_lidar
        ∧ (ProcessMeasurement s m).NIS_radar = s.NIS_radar)
    ∧ (ProcessMeasurement UKF_init
        ⟨SensorType.RADAR, 5, ![5, 0, 0]⟩).x_ = ![5, 0, 0, 0, 0]
    ∧ (ProcessMeasurement UKF_init
        ⟨SensorType.LASER, 5, ![0, 0, 0]⟩).x_ = ![0.001, 0.001, 0, 0, 0] := by
  refine ⟨?_, ?_, ?_, ?_⟩
  · intro s m h1 h2
    obtain ⟨st, t, raw⟩ := m
    cases h2
    rw [ProcessMeasurement, if_pos h1]
    refine ⟨?_, rfl, rfl, rfl, rfl, rfl⟩
    funext i
    rw [initProcess]
    fin_cases i <;> norm_num <;> ring_nf
  · intro s m h1 h2
    obtain ⟨st, t, raw⟩ := m
    cases h2
    rw [ProcessMeasurement, if_pos h1]
    exact ⟨rfl, rfl, rfl, rfl, rfl, rfl⟩
  · rw [ProcessMeasurement,
      if_pos (show UKF_init.is_initialized_ = false by rfl)]
    funext i
    rw [initProcess]
    fin_cases i <;> norm_num
  · rw [ProcessMeasurement,
      if_pos (show UKF_init.is_initialized_ = false by rfl)]
    funext i
    rw [initProcess]
    fin_cases i <;> norm_num

/-- Witness for C4: the radar scenario instantiates the general conjunct at
the concrete uninitialized constructor state. -/
theorem claim_C4_witness :
    UKF_init.is_initialized_ = false
    ∧ (ProcessMeasurement UKF_init ⟨SensorType.RADAR, 5, ![5, 0, 0]⟩).P_
        = UKF_init.P_
    ∧ (ProcessMeasurement UKF_init
        ⟨SensorType.RADAR, 5, ![5, 0, 0]⟩).is_initialized_ = true :=
  ⟨rfl, (claim_C4_first_measurement.1 UKF_init _ rfl rfl).2.1,
    (claim_C4_first_measurement.1 UKF_init _ rfl rfl).2.2.2.1⟩

/-- C5: the per-sigma-point motion model uses the exact curved-path formulas
when the magnitude of the heading rate exceeds 0.001 and the straight-line
formulas otherwise, then adds the noise contributions (half dt squared times
the acceleration noise times cos respectively sin of yaw to position, dt
times the acceleration noise to speed, half dt squared times the yaw noise
to heading and dt times the yaw noise to heading rate). -/
theorem claim_C5_motion_model (delta_t : ℝ) (p : Fin 7 → ℝ) :
    (0.001 < |p 4| →
      predictOne delta_t p =
        ![p 0 + p 2 / p 4 * (Real.sin (p 3 + p 4 * delta_t) - Real.sin (p 3))
            + 0.5 * delta_t ^ 2 * p 5 * Real.cos (p 3),
          p 1 + p 2 / p 4 * (Real.cos (p 3) - Real.cos (p 3 + p 4 * delta_t))
            + 0.5 * delta_t ^ 2 * p 5 * Real.sin (p 3),
          p 2 + delta_t * p 5,
          p 3 + p 4 * delta_t + 0.5 * delta_t ^ 2 * p 6,
          p 4 + delta_t * p 6])
    ∧ (¬ 0.001 < |p 4| →
      predictOne delta_t p =
        ![p 0 + p 2 * delta_t * Real.cos (p 3)
            + 0.5 * delta_t ^ 2 * p 5 * Real.cos (p 3),
          p 1 + p 2 * delta_t * Real.sin (p 3)
            + 0.5 * delta_t ^ 2 * p 5 * Real.sin (p 3),
          p 2 + delta_t * p 5,
          p 3 + p 4 * delta_t + 0.5 * delta_t ^ 2 * p 6,
          p 4 + delta_t * p 6]) := by
  constructor <;> intro h <;> funext r <;> rw [predictOne] <;>
    fin_cases r <;> simp [h] <;> first | ring1 | exact Or.inl (by ring1)

/-- Witness for C5: the curved branch evaluated at a concrete point with unit
heading rate and elapsed time zero. -/
theorem claim_C5_witness :
    (0.001 : ℝ) < |(![1, 2, 3, 0, 1, 0, 0] : Fin 7 → ℝ) 4|
    ∧ predictOne 0 ![1, 2, 3, 0, 1, 0, 0] = ![1, 2, 3, 0, 1] := by
  refine ⟨by norm_num, ?_⟩
  have h := (claim_C5_motion_model 0 ![1, 2, 3, 0, 1, 0, 0]).1 (by norm_num)
  rw [h]
  funext r
  fin_cases r <;> norm_num

/-- C6: the augmented covariance has the belief covariance in its top-left
5 by 5 block, the two process noise variances at entries (5,5) and (6,6) and
zeros elsewhere; there are exactly 15 sigma points; column 0 of the sigma
matrix is the augmented mean, column i+1 adds and column i+8 subtracts
sqrt(lambda+7) times column i of the lower-triangular Cholesky factor. -/
theorem claim_C6_sigma_generation (x : Fin 5 → ℝ)
    (P : Matrix (Fin 5) (Fin 5) ℝ) :
    n_sigma_pts = 15
    ∧ (∀ i j : Fin 5,
        buildPaug P ⟨i.val, by omega⟩ ⟨j.val, by omega⟩ = P i j)
    ∧ buildPaug P 5 5 = std_a * std_a
    ∧ buildPaug P 6 6 = std_yawdd * std_yawdd
    ∧ (∀ i : Fin 5, ∀ j : Fin 2,
        buildPaug P ⟨i.val, by omega⟩ ⟨j.val + 5, by omega⟩ = 0
        ∧ buildPaug P ⟨j.val + 5, by omega⟩ ⟨i.val, by omega⟩ = 0)
    ∧ buildPaug P 5 6 = 0
    ∧ buildPaug P 6 5 = 0
    ∧ (∀ r : Fin 7,
        generateSigmaPoints (buildXaug x) (buildPaug P) r 0 = buildXaug x r)
    ∧ (∀ i : Fin 7, ∀ r : Fin 7,
        generateSigmaPoints (buildXaug x) (buildPaug P) r ⟨i.val + 1, by omega⟩
          = buildXaug x r
            + Real.sqrt (lambda + 7) * cholesky (buildPaug P) r i
        ∧ generateSigmaPoints (buildXaug x) (buildPaug P) r ⟨i.val + 8, by omega⟩
          = buildXaug x r
            - Real.sqrt (lambda + 7) * cholesky (buildPaug P) r i) := by
  refine ⟨by norm_num [n_sigma_pts, n_aug], ?_, ?_, ?_, ?_, ?_, ?_, ?_, ?_⟩
  · intro i j
    have hi := i.isLt
    have hj := j.isLt
    simp [buildPaug, hi, hj]
  · norm_num [buildPaug, fin7_val5]
  · norm_num [buildPaug, fin7_val6]
  · intro i j
    have hi := i.isLt
    fin_cases j <;> constructor <;> norm_num [buildPaug, hi] <;> omega
  · norm_num [buildPaug, fin7_val5, fin7_val6]
  · norm_num [buildPaug, fin7_val5, fin7_val6]
  · intro r
    rfl
  · intro i r
    have hi := i.isLt
    constructor
    · rw [generateSigmaPoints,
        dif_neg (show ¬(i.val + 1 = 0) by omega),
        dif_pos (show i.val + 1 ≤ 7 by omega)]
      norm_num [n_aug]
    · rw [generateSigmaPoints,
        dif_neg (show ¬(i.val + 8 = 0) by omega),
        dif_neg (show ¬(i.val + 8 ≤ 7) by omega)]
      norm_num [n_aug]

/-- C7 counterexample: the claim reads the innovation as the raw difference
between observation and predicted observation mean for DIRECT measurements,
with bearing normalization only for RANGE_BEARING.  The source wraps
component 1 of the residual for both sensor types: for the laser measurement
m7 with y residual 4 the posterior y mean is 80/89 times (4 - 2 pi), not
80/89 times 4 as the raw-innovation reading predicts. -/
theorem claim_C7_counterexample :
    m7.sensor_type_ = SensorType.LASER
    ∧ m7.raw_measurements_ 1 - measMean (lidarZsig M1) 1 = 4
    ∧ (ProcessMeasurement s1 m7).x_ 1 = 80 / 89 * (4 - 2 * Real.pi)
    ∧ (ProcessMeasurement s1 m7).x_ 1
        ≠ stateMean M1 1 + 80 / 89 * (m7.raw_measurements_ 1
            - measMean (lidarZsig M1) 1) := by
  have hx1 : (ProcessMeasurement s1 m7).x_ 1 = 80 / 89 * (4 - 2 * Real.pi) := by
    have hpm : ProcessMeasurement s1 m7 = AfterPrediction s1 m7
        (((m7.timestamp_ - s1.previous_timestamp_ : ℤ) : ℝ) / 1000000) := by
      rw [ProcessMeasurement, if_neg (by simp [s1])]
      rfl
    have hdt : ((m7.timestamp_ - s1.previous_timestamp_ : ℤ) : ℝ) / 1000000
        = 0 := by
      norm_num [m7, s1]
    rw [hpm, hdt, show m7 = ⟨SensorType.LASER, 0, ![1, 4, 0]⟩ from rfl,
      s1_lidar_update]
    norm_num [normalizeAngle_four]
  refine ⟨rfl, by rw [zp1_eval]; norm_num [m7], hx1, ?_⟩
  rw [hx1, zp1_eval, xm1_eval]
  have h3 := Real.pi_gt_three
  norm_num [m7]
  intro hcontra
  nlinarith

/-- C7 amended: for every post-initialization update the corrector sets the
new mean to predicted mean plus gain times innovation and the new covariance
to predicted covariance minus gain times predicted observation covariance
times gain transposed, with gain equal to the cross correlation times the
inverse predicted observation covariance, where the innovation wraps
component 1 of the residual for BOTH sensor types (for DIRECT this is the y
position residual); the NIS scalar is stored in the slot tagged by the
sensor type of the measurement and the other slot is untouched. -/
theorem claim_C7_corrector (s : State) (m : MeasurementPackage)
    (h : s.is_initialized_ = true) :
    (m.sensor_type_ = SensorType.LASER →
      ProcessMeasurement s m =
        (let dt := ((m.timestamp_ - s.previous_timestamp_ : ℤ) : ℝ) / 1000000
         let pr := Prediction s dt
         let Zsig := lidarZsig pr.2.2
         let zp := measMean Zsig
         let S := measCov Zsig zp R_lidar
         let K := crossCorrelation pr.2.2 pr.1 Zsig zp * S⁻¹
         let zd := innovation
            (fun r => m.raw_measurements_ ⟨r.val, by omega⟩) zp
         { s with
           x_ := pr.1 + K.mulVec zd,
           P_ := pr.2.1 - K * S * K.transpose,
           previous_timestamp_ := m.timestamp_,
           NIS_lidar := ∑ r, zd r * (S⁻¹.mulVec zd) r }))
    ∧ (m.sensor_type_ = SensorType.RADAR →
      ProcessMeasurement s m =
        (let dt := ((m.timestamp_ - s.previous_timestamp_ : ℤ) : ℝ) / 1000000
         let pr := Prediction s dt
         let Zsig := radarZsig pr.2.2
         let zp := measMean Zsig
         let S := measCov Zsig zp R_radar
         let K := crossCorrelation pr.2.2 pr.1 Zsig zp * S⁻¹
         let zd := innovation m.raw_measurements_ zp
         { s with
           x_ := pr.1 + K.mulVec zd,
           P_ := pr.2.1 - K * S * K.transpose,
           previous_timestamp_ := m.timestamp_,
           NIS_radar := ∑ r, zd r * (S⁻¹.mulVec zd) r })) := by
  obtain ⟨st, t, raw⟩ := m
  constructor <;> intro hs <;> cases hs <;>
    (rw [ProcessMeasurement, if_neg (by simp [h])]; rfl)

/-- Witness for C7: for the laser measurement m1 from state s1 the radar NIS
slot is untouched. -/
theorem claim_C7_witness : (ProcessMeasurement s1 m1).NIS_radar = 0 := by
  have hm := (claim_C7_corrector s1 m1 rfl).1 rfl
  rw [hm]
  rfl

/-- C8 counterexample: the angle normalization of minus pi returns minus pi,
which is outside the half-open interval (-pi, pi] stated by the claim. -/
theorem claim_C8_counterexample :
    normalizeAngle (-Real.pi) = -Real.pi
    ∧ -Real.pi ∉ Set.Ioc (-Real.pi) Real.pi := by
  have hpi := Real.pi_pos
  exact ⟨normalizeAngle_eq_self le_rfl (by linarith), by simp⟩

/-- C8 amended: the normalization returns a value in the CLOSED interval
[-pi, pi] (minus pi is attainable, for example at input minus pi), and
applying the normalization to an already-normalized value leaves it
unchanged. -/
theorem claim_C8_normalization_range (x : ℝ) :
    normalizeAngle x ∈ Set.Icc (-Real.pi) Real.pi
    ∧ normalizeAngle (normalizeAngle x) = normalizeAngle x :=
  ⟨⟨(normalizeAngle_mem x).1, (normalizeAngle_mem x).2⟩, normalizeAngle_idem x⟩

/-- C9 counterexample: for the measurement m9, one second older than the
stored timestamp of s9, ProcessMeasurement neither rejects (the heading
would stay 0) nor clamps the elapsed time at zero (processing the same
reading at the stored timestamp, m9c, leaves the heading 0): it runs the
propagation with elapsed time minus one and the posterior heading becomes
minus one. -/
theorem claim_C9_counterexample :
    m9.timestamp_ < s9.previous_timestamp_
    ∧ (ProcessMeasurement s9 m9).x_ 3 = -1
    ∧ s9.x_ 3 = 0
    ∧ (ProcessMeasurement s9 m9c).x_ 3 = 0
    ∧ (-1 : ℝ) ≠ 0 := by
  refine ⟨by norm_num [m9, s9], ?_, by norm_num [s9], ?_, by norm_num⟩
  · have hpm : ProcessMeasurement s9 m9 = AfterPrediction s9 m9
        (((m9.timestamp_ - s9.previous_timestamp_ : ℤ) : ℝ) / 1000000) := by
      rw [ProcessMeasurement, if_neg (by simp [s9])]
      rfl
    have hdt : ((m9.timestamp_ - s9.previous_timestamp_ : ℤ) : ℝ) / 1000000
        = -1 := by
      norm_num [m9, s9]
    rw [hpm, hdt, show m9 = ⟨SensorType.LASER, -1000000, ![1, 0, 0]⟩ from rfl]
    exact s9_lidar_neg
  · have hpm : ProcessMeasurement s9 m9c = AfterPrediction s9 m9c
        (((m9c.timestamp_ - s9.previous_timestamp_ : ℤ) : ℝ) / 1000000) := by
      rw [ProcessMeasurement, if_neg (by simp [s9])]
      rfl
    have hdt : ((m9c.timestamp_ - s9.previous_timestamp_ : ℤ) : ℝ) / 1000000
        = 0 := by
      norm_num [m9c, s9]
    rw [hpm, hdt, show m9c = ⟨SensorType.LASER, 0, ![1, 0, 0]⟩ from rfl]
    exact s9_lidar_clamped

/-- C9 amended: ProcessMeasurement performs no ordering validation: for every
initialized state the elapsed time is the raw timestamp difference divided by
one million, it is negative whenever the measurement timestamp is older than
the stored one, and it is passed to the propagation and update unchanged. -/
theorem claim_C9_no_ordering_guard (s : State) (m : MeasurementPackage)
    (h : s.is_initialized_ = true) :
    ProcessMeasurement s m
      = AfterPrediction s m
          (((m.timestamp_ - s.previous_timestamp_ : ℤ) : ℝ) / 1000000)
    ∧ (m.timestamp_ < s.previous_timestamp_ →
        ((m.timestamp_ - s.previous_timestamp_ : ℤ) : ℝ) / 1000000 < 0) := by
  constructor
  · rw [ProcessMeasurement, if_neg (by simp [h])]
    rfl
  · intro hlt
    apply div_neg_of_neg_of_pos _ (by norm_num)
    exact_mod_cast sub_neg.mpr hlt

/-- Witness for C9: the amended theorem applied to the concrete state s9 and
the out-of-order measurement m9. -/
theorem claim_C9_witness :
    ((m9.timestamp_ - s9.previous_timestamp_ : ℤ) : ℝ) / 1000000 < 0
    ∧ ProcessMeasurement s9 m9
        = AfterPrediction s9 m9
            (((m9.timestamp_ - s9.previous_timestamp_ : ℤ) : ℝ) / 1000000) := by
  have h := claim_C9_no_ordering_guard s9 m9 rfl
  exact ⟨h.2 (by norm_num [m9, s9]), h.1⟩

/-- C10: the recombination weights are weight 0 = lambda/(lambda+7) = -2/5
and weight i = 1/(2(lambda+7)) = 1/10 for i in 1..14; they sum exactly to
one; and the same constant weight vector is the one used in every
recombination: the predicted state mean and covariance, the predicted
observation mean and covariance, and the cross correlation. -/
theorem claim_C10_weights :
    weights 0 = lambda / (lambda + (n_aug : ℝ))
    ∧ weights 0 = -(2 / 5)
    ∧ (∀ i : Fin 15, i ≠ 0 →
        weights i = 1 / (2 * (lambda + 7)) ∧ weights i = 1 / 10)
    ∧ (∑ i : Fin 15, weights i) = 1
    ∧ (∀ Xp : Matrix (Fin 5) (Fin 15) ℝ,
        stateMean Xp = fun r => ∑ c : Fin 15, weights c * Xp r c)
    ∧ (∀ (Xp : Matrix (Fin 5) (Fin 15) ℝ) (x : Fin 5 → ℝ),
        stateCov Xp x = ∑ c : Fin 15,
          weights c • Matrix.vecMulVec (xdiffN Xp x c) (xdiffN Xp x c))
    ∧ (∀ (k : ℕ) (Z : Matrix (Fin (k + 2)) (Fin 15) ℝ),
        measMean Z = fun r => ∑ c : Fin 15, weights c * Z r c)
    ∧ (∀ (k : ℕ) (Z : Matrix (Fin (k + 2)) (Fin 15) ℝ)
        (zp : Fin (k + 2) → ℝ) (R : Matrix (Fin (k + 2)) (Fin (k + 2)) ℝ),
        measCov Z zp R = (∑ c : Fin 15,
          weights c • Matrix.vecMulVec (zdiffN Z zp c) (zdiffN Z zp c)) + R)
    ∧ (∀ (k : ℕ) (Xp : Matrix (Fin 5) (Fin 15) ℝ) (x : Fin 5 → ℝ)
        (Z : Matrix (Fin (k + 2)) (Fin 15) ℝ) (zp : Fin (k + 2) → ℝ),
        crossCorrelation Xp x Z zp = ∑ c : Fin 15,
          weights c • Matrix.vecMulVec (xdiffN Xp x c) (zdiffN Z zp c)) := by
  refine ⟨by rw [weights, if_pos rfl],
    by norm_num [weights, lambda, n_x, n_aug], ?_, ?_,
    fun _ => rfl, fun _ _ => rfl, fun _ _ => rfl, fun _ _ _ _ => rfl,
    fun _ _ _ _ _ => rfl⟩
  · intro i hi
    rw [weights]
    rw [if_neg hi]
    constructor <;> norm_num [lambda, n_x, n_aug]
  · rw [weights_eq]
    norm_num [Fin.sum_univ_succ, Fin.succ_ne_zero]

/-- Witness for C10: the nonzero-index conjunct at index one. -/
theorem claim_C10_witness : (1 : Fin 15) ≠ 0 ∧ weights 1 = 1 / 10 :=
  ⟨by decide, (claim_C10_weights.2.2.1 1 (by decide)).2⟩

end UKF
